import Mathlib

/-!
# Verification of `bin/check_samplesheet.py` (nf-core/circleseq samplesheet checker)

A shallow embedding of the procedural samplesheet validation and reformatting
logic of `check_samplesheet.py`.  Input files are modelled as the list of their
lines (as handed out by iterating the file handle, newline handling being
absorbed by the `strip()` calls the code performs on every line).  A run of the
checker is modelled as the pair of (a) the text written to the output file —
`""` when the output file is never created — and (b) the fatal error the run
aborts with, if any (`print_error` / `sys.exit(1)` in the source).

String primitives (`strip`, `split(",")`, `replace(" ", "_")`, `find(" ")`,
`endswith`) are given structurally recursive definitions over the character
list of the string, faithful to the Python semantics on the character sets
involved, so that every definition evaluates inside the kernel.
-/

namespace CircleSeq

/-- Python `str.strip(chars)` over a character list: drop matching characters
from both ends. -/
def stripChars (p : Char → Bool) (l : List Char) : List Char :=
  ((l.dropWhile p).reverse.dropWhile p).reverse

/-- Python `line.strip()`: remove leading and trailing whitespace. -/
def pyStrip (s : String) : String :=
  String.mk (stripChars Char.isWhitespace s.data)

/-- Python `x.strip('"')`: remove leading and trailing double quotes. -/
def stripQuotes (s : String) : String :=
  String.mk (stripChars (fun c => c = '"') s.data)

/-- Helper for `splitComma`: accumulates the current field (reversed). -/
def splitCommaAux : List Char → List Char → List String
  | [], acc => [String.mk acc.reverse]
  | c :: rest, acc =>
    if c = ',' then String.mk acc.reverse :: splitCommaAux rest []
    else splitCommaAux rest (c :: acc)

/-- Python `s.split(",")` (note: `"".split(",") == [""]`). -/
def splitComma (s : String) : List String :=
  splitCommaAux s.data []

/-- Python `s.replace(" ", "_")` (single-character pattern, hence a map). -/
def replaceSpaces (s : String) : String :=
  String.mk (s.data.map (fun c => if c = ' ' then '_' else c))

/-- Python `s.find(" ") != -1`: does the string contain a space? -/
def containsSpaceChar (s : String) : Bool :=
  s.data.any (fun c => c = ' ')

/-- Does the character list `l` end with the character list `t`? -/
def listEndsWith (l t : List Char) : Bool :=
  decide (t.length ≤ l.length) && (l.drop (l.length - t.length) == t)

/-- Python `s.endswith(t)`. -/
def strEndsWith (s t : String) : Bool :=
  listEndsWith s.data t.data

/-- Row parsing: `lspl = [x.strip().strip('"') for x in line.strip().split(",")]`. -/
def parseLine (line : String) : List String :=
  (splitComma (pyStrip line)).map (fun x => stripQuotes (pyStrip x))

/-- Header parsing: `header = [x.strip('"') for x in fin.readline().strip().split(",")]`. -/
def headerFields (line : String) : List String :=
  (splitComma (pyStrip line)).map stripQuotes

/-- The fatal conditions the script aborts with (each `print_error` /
`sys.exit(1)` site), carrying the context it reports. -/
inductive CheckError where
  /-- Samplesheet header does not start with the required columns. -/
  | badHeader (got expected : String)
  /-- Error `Invalid number of columns (minimum = len(HEADER))!`, citing the line. -/
  | invalidColumns (line : String)
  /-- Error `Invalid number of populated columns (minimum = MIN_COLS)!`. -/
  | invalidPopulated (line : String)
  /-- Error `Sample entry has not been specified!`. -/
  | noSample (line : String)
  /-- Error `FastQ file contains spaces!` / `BAM file contains spaces!`. -/
  | fileSpaces (line : String)
  /-- FastQ / BAM file does not have the required extension. -/
  | badExtension (line : String)
  /-- Error `Invalid combination of columns provided!`. -/
  | invalidCombination (line : String)
  /-- Error `Samplesheet contains duplicate rows!`. -/
  | duplicateRows (line : String)
  /-- Error `Multiple runs of a sample must be of the same datatype!`, naming the sample. -/
  | datatypeMismatch (sample : String)
  /-- Error `No entries to process!`. -/
  | noEntries
  /-- Error `INPUT_FORMAT needs to be either 'FASTQ' or 'BAM'`. -/
  | invalidFormat
  deriving DecidableEq, Repr

/-- The `sample_mapping_dict`: an insertion-ordered map from sanitized sample name
to the list of recorded `sample_info` tuples, in encounter order. -/
abbrev Mapping := List (String × List (List String))

/-- Look a sample up in the mapping (`sample in sample_mapping_dict`). -/
def lookupSample : Mapping → String → Option (List (List String))
  | [], _ => none
  | (k, v) :: rest, s => if k = s then some v else lookupSample rest s

/-- Replace the value stored for a key (Python dict item assignment). -/
def updateSample : Mapping → String → List (List String) → Mapping
  | [], _, _ => []
  | (k, v) :: rest, s, vs =>
    if k = s then (k, vs) :: rest else (k, v) :: updateSample rest s vs

/-- The `sample_mapping_dict` update block shared by both branches: first
occurrence of a sample starts a new group, a repeated `sample_info` for the
same sample is a fatal duplicate, otherwise it is appended to the group. -/
def addRow (m : Mapping) (sample : String) (info : List String) (line : String) :
    Except CheckError Mapping :=
  match lookupSample m sample with
  | none => .ok (m ++ [(sample, [info])])
  | some infos =>
    if info ∈ infos then .error (.duplicateRows line)
    else .ok (updateSample m sample (infos ++ [info]))

/-- FASTQ per-file check: skipped for an empty field, then rejects spaces,
then requires extension `.fastq.gz` or `.fq.gz`. -/
def checkFastqFile (line f : String) : Except CheckError Unit :=
  if f = "" then .ok ()
  else if containsSpaceChar f then .error (.fileSpaces line)
  else if strEndsWith f ".fastq.gz" || strEndsWith f ".fq.gz" then .ok ()
  else .error (.badExtension line)

/-- BAM per-file check: skipped for an empty field, then rejects spaces,
then requires extension `.bam`. -/
def checkBamFile (line f : String) : Except CheckError Unit :=
  if f = "" then .ok ()
  else if containsSpaceChar f then .error (.fileSpaces line)
  else if strEndsWith f ".bam" then .ok ()
  else .error (.badExtension line)

/-- One iteration of the FASTQ `for line in fin` loop: column-count check
against `len(HEADER) = 3`, populated-column check against `MIN_COLS = 2`,
sample sanitization and presence check, per-file checks, pairing
classification, and the mapping update. -/
def processFastqLine (m : Mapping) (line : String) : Except CheckError Mapping :=
  let lspl := parseLine line
  if lspl.length < 3 then .error (.invalidColumns line)
  else if ((lspl.filter (fun x => x ≠ "")).length) < 2 then .error (.invalidPopulated line)
  else
    let sample := replaceSpaces (lspl.getD 0 "")
    let fastq1 := lspl.getD 1 ""
    let fastq2 := lspl.getD 2 ""
    if sample = "" then .error (.noSample line)
    else
      match checkFastqFile line fastq1 with
      | .error e => .error e
      | .ok _ =>
        match checkFastqFile line fastq2 with
        | .error e => .error e
        | .ok _ =>
          if sample ≠ "" ∧ fastq1 ≠ "" ∧ fastq2 ≠ "" then
            addRow m sample ["0", fastq1, fastq2] line
          else if sample ≠ "" ∧ fastq1 ≠ "" ∧ fastq2 = "" then
            addRow m sample ["1", fastq1, fastq2] line
          else .error (.invalidCombination line)

/-- The FASTQ row loop over the data lines. -/
def processFastqLines : Mapping → List String → Except CheckError Mapping
  | m, [] => .ok m
  | m, line :: rest =>
    match processFastqLine m line with
    | .error e => .error e
    | .ok m2 => processFastqLines m2 rest

/-- One iteration of the BAM `for line in fin` loop (`HEADER = ["sample",
"bam"]`, `MIN_COLS = 2`); records `sample_info = ["1", bam]`. -/
def processBamLine (m : Mapping) (line : String) : Except CheckError Mapping :=
  let lspl := parseLine line
  if lspl.length < 2 then .error (.invalidColumns line)
  else if ((lspl.filter (fun x => x ≠ "")).length) < 2 then .error (.invalidPopulated line)
  else
    let sample := replaceSpaces (lspl.getD 0 "")
    let bam := lspl.getD 1 ""
    if sample = "" then .error (.noSample line)
    else
      match checkBamFile line bam with
      | .error e => .error e
      | .ok _ => addRow m sample ["1", bam] line

/-- The BAM row loop over the data lines. -/
def processBamLines : Mapping → List String → Except CheckError Mapping
  | m, [] => .ok m
  | m, line :: rest =>
    match processBamLine m line with
    | .error e => .error e
    | .ok m2 => processBamLines m2 rest

/-- Lexicographic-by-code-point comparison of character lists, matching
Python string comparison. -/
def charListLe : List Char → List Char → Bool
  | [], _ => true
  | _ :: _, [] => false
  | a :: as, b :: bs => if a = b then charListLe as bs else decide (a < b)

/-- Python `s1 <= s2` on strings. -/
def strLe (s t : String) : Bool :=
  charListLe s.data t.data

/-- Insert a string into an already sorted list. -/
def insertStr (s : String) : List String → List String
  | [] => [s]
  | t :: rest => if strLe s t then s :: t :: rest else t :: insertStr s rest

/-- Python `sorted(keys)`: insertion sort by lexicographic order. -/
def sortStrs : List String → List String
  | [] => []
  | s :: rest => insertStr s (sortStrs rest)

/-- The sorted sample names of the mapping (`sorted(sample_mapping_dict.keys())`). -/
def sortedKeys (m : Mapping) : List String :=
  sortStrs (m.map Prod.fst)

/-- Python `",".join(l)`. -/
def joinWithComma : List String → String
  | [] => ""
  | [x] => x
  | x :: y :: rest => x ++ "," ++ joinWithComma (y :: rest)

/-- Concatenation of a list of strings. -/
def strJoin : List String → String
  | [] => ""
  | x :: rest => x ++ strJoin rest

/-- Consistency test `all(x[0] == sample_mapping_dict[sample][0][0] for x in ...)`. -/
def consistentGroup (infos : List (List String)) : Bool :=
  infos.all (fun x => x.getD 0 "" = (infos.headD []).getD 0 "")

/-- The lines written for one FASTQ sample group:
`",".join(["{}_T{}".format(sample, idx + 1)] + val) + "\n"` for each recorded
tuple, `idx` counting from 0 in encounter order. -/
def fastqGroupRows (sample : String) (infos : List (List String)) : String :=
  strJoin (infos.enum.map (fun p =>
    joinWithComma ((sample ++ "_T" ++ Nat.repr (p.1 + 1)) :: p.2) ++ "\n"))

/-- The FASTQ writing loop over the sorted sample names: before a sample's
rows are written its group must be datatype-consistent, otherwise the run
aborts having written `acc`. -/
def writeFastqSamples (m : Mapping) : List String → String → String × Option CheckError
  | [], acc => (acc, none)
  | s :: rest, acc =>
    let infos := (lookupSample m s).getD []
    if consistentGroup infos then
      writeFastqSamples m rest (acc ++ fastqGroupRows s infos)
    else (acc, some (.datatypeMismatch s))

/-- The text written to the FASTQ output file, and the datatype-consistency
error, if the writing loop aborts part-way. -/
def fastqOutput (m : Mapping) : String × Option CheckError :=
  writeFastqSamples m (sortedKeys m) "sample,single_end,fastq_1,fastq_2\n"

/-- The lines written for one BAM sample group:
`",".join(["{}".format(sample)] + val) + "\n"` for each recorded tuple (the
`enumerate` index of the source loop is unused in the write). -/
def bamGroupRows (sample : String) (infos : List (List String)) : String :=
  strJoin (infos.map (fun val => joinWithComma (sample :: val) ++ "\n"))

/-- The text written to the BAM output file. -/
def bamOutput (m : Mapping) : String :=
  "sample,idx,bam\n" ++
    strJoin ((sortedKeys m).map (fun s => bamGroupRows s ((lookupSample m s).getD [])))

/-- Required FASTQ header columns.  Modelled from the spec: the FASTQ-mode
`HEADER` constant and header check are absent from the merged source (only the
BAM branch retains them); the spec fixes them as the exact required columns
`sample,fastq_1,fastq_2`, checked as a prefix of the input header. -/
def fastqHeader : List String := ["sample", "fastq_1", "fastq_2"]

/-- Required BAM header columns (`HEADER = ["sample", "bam"]`). -/
def bamHeader : List String := ["sample", "bam"]

/-- The whole checker: dispatch on the case-sensitive mode string, check the
header, run the row loop, and (if any entries were recorded) write the output
file.  Returns the content written to the output file (`""` when the file is
never created) together with the fatal error, if any. -/
def check_samplesheet (lines : List String) (input_format : String) :
    String × Option CheckError :=
  if input_format = "FASTQ" then
    let hdr := headerFields (lines.headD "")
    if hdr.take 3 ≠ fastqHeader then
      ("", some (.badHeader (joinWithComma hdr) (joinWithComma fastqHeader)))
    else
      match processFastqLines [] lines.tail with
      | .error e => ("", some e)
      | .ok m =>
        if 0 < m.length then fastqOutput m
        else ("", some .noEntries)
  else if input_format = "BAM" then
    let hdr := headerFields (lines.headD "")
    if hdr.take 2 ≠ bamHeader then
      ("", some (.badHeader (joinWithComma hdr) (joinWithComma bamHeader)))
    else
      match processBamLines [] lines.tail with
      | .error e => ("", some e)
      | .ok m =>
        if 0 < m.length then (bamOutput m, none)
        else ("", some .noEntries)
  else ("", some .invalidFormat)

/-! ## Helper lemmas -/

theorem mem_insertStr (x s : String) (l : List String) :
    x ∈ insertStr s l ↔ x = s ∨ x ∈ l := by
  induction l with
  | nil => simp [insertStr]
  | cons t rest ih =>
    unfold insertStr
    split
    · simp [List.mem_cons]
    · simp only [List.mem_cons, ih]
      tauto

theorem mem_sortStrs (x : String) (l : List String) :
    x ∈ sortStrs l ↔ x ∈ l := by
  induction l with
  | nil => simp [sortStrs]
  | cons s rest ih => simp [sortStrs, mem_insertStr, ih]

theorem strJoin_cons (x : String) (l : List String) :
    strJoin (x :: l) = x ++ strJoin l := rfl

theorem writeFastqSamples_all_ok (m : Mapping) (ks : List String) (acc : String)
    (h : ∀ s ∈ ks, consistentGroup ((lookupSample m s).getD []) = true) :
    writeFastqSamples m ks acc =
      (acc ++ strJoin (ks.map (fun s => fastqGroupRows s ((lookupSample m s).getD []))),
       none) := by
  induction ks generalizing acc with
  | nil => simp [writeFastqSamples, strJoin]
  | cons k ks ih =>
    have hk := h k (List.mem_cons_self k ks)
    simp only [writeFastqSamples, hk, if_true]
    rw [ih _ (fun s hs => h s (List.mem_cons_of_mem _ hs))]
    simp [strJoin_cons, String.append_assoc]

theorem writeFastqSamples_first_bad (m : Mapping) (ks1 : List String) (s : String)
    (ks2 : List String) (acc : String)
    (h1 : ∀ t ∈ ks1, consistentGroup ((lookupSample m t).getD []) = true)
    (hs : consistentGroup ((lookupSample m s).getD []) = false) :
    writeFastqSamples m (ks1 ++ s :: ks2) acc =
      (acc ++ strJoin (ks1.map (fun t => fastqGroupRows t ((lookupSample m t).getD []))),
       some (.datatypeMismatch s)) := by
  induction ks1 generalizing acc with
  | nil => simp [writeFastqSamples, hs, strJoin]
  | cons k ks ih =>
    have hk := h1 k (List.mem_cons_self k ks)
    rw [List.cons_append]
    simp only [writeFastqSamples, hk, if_true]
    rw [ih _ (fun t ht => h1 t (List.mem_cons_of_mem _ ht))]
    simp [strJoin_cons, String.append_assoc]

theorem writeFastqSamples_exists_bad (m : Mapping) (ks : List String) (acc : String)
    (h : ∃ s ∈ ks, consistentGroup ((lookupSample m s).getD []) = false) :
    ∃ t, (writeFastqSamples m ks acc).2 = some (.datatypeMismatch t) ∧
      consistentGroup ((lookupSample m t).getD []) = false := by
  induction ks generalizing acc with
  | nil => simp at h
  | cons k ks ih =>
    by_cases hk : consistentGroup ((lookupSample m k).getD []) = true
    · obtain ⟨s, hmem, hbad⟩ := h
      rcases List.mem_cons.mp hmem with rfl | hmem
      · rw [hk] at hbad; cases hbad
      · simp only [writeFastqSamples, hk, if_true]
        exact ih _ ⟨s, hmem, hbad⟩
    · have hk' : consistentGroup ((lookupSample m k).getD []) = false := by
        simpa using hk
      exact ⟨k, by simp [writeFastqSamples, hk'], hk'⟩

theorem lookupSample_append_right (m : Mapping) (s : String) (vs : List (List String))
    (h : lookupSample m s = none) :
    lookupSample (m ++ [(s, vs)]) s = some vs := by
  induction m with
  | nil => simp [lookupSample]
  | cons p rest ih =>
    obtain ⟨k, v⟩ := p
    simp only [lookupSample] at h ⊢
    by_cases hk : k = s
    · rw [if_pos hk] at h; cases h
    · rw [if_neg hk] at h ⊢
      exact ih h

theorem lookupSample_append_other (m : Mapping) (s t : String) (vs : List (List String))
    (h : t ≠ s) :
    lookupSample (m ++ [(s, vs)]) t = lookupSample m t := by
  induction m with
  | nil =>
    simp only [List.nil_append, lookupSample]
    rw [if_neg (fun hh => h hh.symm)]
  | cons p rest ih =>
    obtain ⟨k, v⟩ := p
    simp only [List.cons_append, lookupSample]
    by_cases hk : k = t
    · simp [hk]
    · simp [hk, ih]

theorem lookupSample_updateSample_self (m : Mapping) (s : String)
    (vs infos : List (List String)) (h : lookupSample m s = some infos) :
    lookupSample (updateSample m s vs) s = some vs := by
  induction m with
  | nil => cases h
  | cons p rest ih =>
    obtain ⟨k, v⟩ := p
    simp only [lookupSample, updateSample] at h ⊢
    by_cases hk : k = s
    · simp [lookupSample, hk]
    · rw [if_neg hk] at h ⊢
      simp only [lookupSample, if_neg hk]
      exact ih h

theorem lookupSample_updateSample_other (m : Mapping) (s t : String)
    (vs : List (List String)) (h : t ≠ s) :
    lookupSample (updateSample m s vs) t = lookupSample m t := by
  induction m with
  | nil => simp [updateSample]
  | cons p rest ih =>
    obtain ⟨k, v⟩ := p
    by_cases hk : k = s
    · subst hk
      simp only [updateSample, if_pos rfl, lookupSample]
      rw [if_neg (fun hh => h hh.symm), if_neg (fun hh => h hh.symm)]
    · simp only [updateSample, if_neg hk, lookupSample]
      by_cases hkt : k = t
      · simp [hkt]
      · simp [hkt, ih]

theorem addRow_group_append (m : Mapping) (sample : String) (info : List String)
    (line : String) (m' : Mapping) (h : addRow m sample info line = .ok m') :
    lookupSample m' sample = some ((lookupSample m sample).getD [] ++ [info]) := by
  unfold addRow at h
  split at h
  next hl =>
    cases h
    rw [hl]
    simpa using lookupSample_append_right m sample [info] hl
  next infos hl =>
    rw [hl]
    split at h
    · cases h
    · cases h
      simpa using lookupSample_updateSample_self m sample (infos ++ [info]) infos hl

theorem addRow_group_other (m : Mapping) (sample : String) (info : List String)
    (line : String) (m' : Mapping) (t : String) (h : addRow m sample info line = .ok m')
    (ht : t ≠ sample) :
    lookupSample m' t = lookupSample m t := by
  unfold addRow at h
  split at h
  next hl =>
    cases h
    exact lookupSample_append_other m sample t [info] ht
  next infos hl =>
    split at h
    · cases h
    · cases h
      exact lookupSample_updateSample_other m sample t (infos ++ [info]) ht

theorem addRow_cases (m : Mapping) (s : String) (i : List String) (line : String) :
    (∃ m', addRow m s i line = .ok m') ∨
      addRow m s i line = .error (.duplicateRows line) := by
  unfold addRow
  cases lookupSample m s with
  | none => exact .inl ⟨_, rfl⟩
  | some infos =>
    by_cases h : i ∈ infos
    · simp [h]
    · simp [h]

theorem checkFastqFile_cases (line f : String) :
    checkFastqFile line f = .ok () ∨
      checkFastqFile line f = .error (.fileSpaces line) ∨
      checkFastqFile line f = .error (.badExtension line) := by
  unfold checkFastqFile
  split_ifs <;> simp

theorem checkBamFile_cases (line f : String) :
    checkBamFile line f = .ok () ∨
      checkBamFile line f = .error (.fileSpaces line) ∨
      checkBamFile line f = .error (.badExtension line) := by
  unfold checkBamFile
  split_ifs <;> simp

theorem fastq_abort_no_output (hdr : String) (ls : List String) (e : CheckError)
    (hh : (headerFields hdr).take 3 = fastqHeader)
    (hp : processFastqLines [] ls = .error e) :
    check_samplesheet (hdr :: ls) "FASTQ" = ("", some e) := by
  unfold check_samplesheet
  rw [if_pos rfl]
  simp only [List.headD_cons, List.tail_cons]
  rw [if_neg (by simp [hh]), hp]

theorem fastq_success_output (lines : List String) (m : Mapping)
    (hh : (headerFields (lines.headD "")).take 3 = fastqHeader)
    (hp : processFastqLines [] lines.tail = .ok m) (hne : m ≠ []) :
    check_samplesheet lines "FASTQ" = fastqOutput m := by
  cases lines with
  | nil => exact absurd hh (by decide)
  | cons hdr ls =>
    simp only [List.headD_cons] at hh
    simp only [List.tail_cons] at hp
    unfold check_samplesheet
    rw [if_pos rfl]
    simp only [List.headD_cons, List.tail_cons]
    rw [if_neg (by simp [hh]), hp]
    simp [List.length_pos, hne]

theorem bam_success_output (lines : List String) (m : Mapping)
    (hh : (headerFields (lines.headD "")).take 2 = bamHeader)
    (hp : processBamLines [] lines.tail = .ok m) (hne : m ≠ []) :
    check_samplesheet lines "BAM" = (bamOutput m, none) := by
  cases lines with
  | nil => exact absurd hh (by decide)
  | cons hdr ls =>
    simp only [List.headD_cons] at hh
    simp only [List.tail_cons] at hp
    unfold check_samplesheet
    rw [if_neg (by decide), if_pos rfl]
    simp only [List.headD_cons, List.tail_cons]
    rw [if_neg (by simp [hh]), hp]
    simp [List.length_pos, hne]

/-! ## Claim theorems -/

/-- C7: for every mode argument other than the exact case-sensitive strings
`FASTQ` and `BAM` (e.g. `XML`), the run fails immediately with the
invalid-format fatal error and no output file is written (content `""`),
regardless of the input file's contents. -/
theorem claim_invalid_format_mode :
    (∀ (lines : List String) (fmt : String), fmt ≠ "FASTQ" → fmt ≠ "BAM" →
      check_samplesheet lines fmt = ("", some .invalidFormat)) ∧
    check_samplesheet ["sample,fastq_1,fastq_2", "S1,a.fastq.gz,"] "XML" =
      ("", some .invalidFormat) := by
  refine ⟨?_, by decide⟩
  intro lines fmt h1 h2
  unfold check_samplesheet
  rw [if_neg h1, if_neg h2]

/-- Witness for C7: mode `ZZZ` on a well-formed BAM sheet aborts with the
invalid-format error and writes nothing. -/
theorem claim_invalid_format_mode_witness :
    check_samplesheet ["sample,bam", "S1,S1.bam"] "ZZZ" = ("", some .invalidFormat) :=
  claim_invalid_format_mode.1 ["sample,bam", "S1,S1.bam"] "ZZZ" (by decide) (by decide)

/-- C4: in either mode, recording a row aborts with the fatal duplicate-rows
error exactly when the row's recorded tuple is already present for the same
sanitized sample name; concretely, two identical FASTQ rows for `S1` fail as
duplicates, while two rows for `S1` with different files both succeed and
receive the distinct suffixes `_T1` and `_T2` in the output. -/
theorem claim_duplicate_rows :
    (∀ (m : Mapping) (sample : String) (info : List String) (line : String),
      addRow m sample info line = .error (.duplicateRows line) ↔
        info ∈ (lookupSample m sample).getD []) ∧
    check_samplesheet ["sample,fastq_1,fastq_2", "S1,a.fastq.gz,", "S1,a.fastq.gz,"]
      "FASTQ" = ("", some (.duplicateRows "S1,a.fastq.gz,")) ∧
    check_samplesheet ["sample,fastq_1,fastq_2", "S1,a.fastq.gz,", "S1,b.fastq.gz,"]
      "FASTQ" =
      ("sample,single_end,fastq_1,fastq_2\nS1_T1,1,a.fastq.gz,\nS1_T2,1,b.fastq.gz,\n",
       none) := by
  refine ⟨?_, by decide, by decide⟩
  intro m sample info line
  unfold addRow
  cases hl : lookupSample m sample with
  | none => simp
  | some infos =>
    by_cases hmem : info ∈ infos
    · simp [hmem]
    · simp [hmem]

/-- C9: in BAM mode a data row whose `bam` field is empty but which has at
least two populated fields passes every validation check (the space and
extension checks are skipped for an empty field) and is recorded as
`["1", ""]`; concretely, `S1,,extra` yields the output row `S1,1,` whose
file-path column is the empty string. -/
theorem claim_bam_empty_bam_field :
    (∀ (m : Mapping) (line : String),
      2 ≤ (parseLine line).length →
      2 ≤ ((parseLine line).filter (fun x => x ≠ "")).length →
      replaceSpaces ((parseLine line).getD 0 "") ≠ "" →
      (parseLine line).getD 1 "" = "" →
      processBamLine m line =
        addRow m (replaceSpaces ((parseLine line).getD 0 "")) ["1", ""] line) ∧
    check_samplesheet ["sample,bam", "S1,,extra"] "BAM" =
      ("sample,idx,bam\nS1,1,\n", none) := by
  refine ⟨?_, by decide⟩
  intro m line h1 h2 h3 h4
  simp only [processBamLine]
  rw [if_neg (show ¬(parseLine line).length < 2 from by omega)]
  rw [if_neg (show ¬((parseLine line).filter (fun x => x ≠ "")).length < 2 from by omega)]
  rw [if_neg h3]
  rw [h4]
  simp [checkBamFile]

/-- Witness for C9: the row `S1,,extra` itself satisfies the hypotheses and is
recorded for sample `S1` as the tuple `["1", ""]`. -/
theorem claim_bam_empty_bam_field_witness :
    processBamLine [] "S1,,extra" = addRow [] "S1" ["1", ""] "S1,,extra" :=
  claim_bam_empty_bam_field.1 [] "S1,,extra" (by decide) (by decide) (by decide)
    (by decide)

/-- C6: every non-empty file field is checked: a filename containing a space is
a fatal contains-spaces error, a FASTQ filename not ending in `.fastq.gz` or
`.fq.gz` (resp. a BAM filename not ending in `.bam`) is a fatal extension
error; and any row-loop abort leaves the output file uncreated, so a row whose
filename contains a space never appears in the output. -/
theorem claim_filename_validity :
    (∀ line f : String, f ≠ "" → containsSpaceChar f = true →
      checkFastqFile line f = .error (.fileSpaces line)) ∧
    (∀ line f : String, f ≠ "" → containsSpaceChar f = false →
      strEndsWith f ".fastq.gz" = false → strEndsWith f ".fq.gz" = false →
      checkFastqFile line f = .error (.badExtension line)) ∧
    (∀ line f : String, f ≠ "" → containsSpaceChar f = true →
      checkBamFile line f = .error (.fileSpaces line)) ∧
    (∀ line f : String, f ≠ "" → containsSpaceChar f = false →
      strEndsWith f ".bam" = false →
      checkBamFile line f = .error (.badExtension line)) ∧
    (∀ (hdr : String) (ls : List String) (e : CheckError),
      (headerFields hdr).take 3 = fastqHeader →
      processFastqLines [] ls = .error e →
      check_samplesheet (hdr :: ls) "FASTQ" = ("", some e)) ∧
    check_samplesheet ["sample,fastq_1,fastq_2", "S1,a b.fastq.gz,"] "FASTQ" =
      ("", some (.fileSpaces "S1,a b.fastq.gz,")) := by
  refine ⟨?_, ?_, ?_, ?_, fastq_abort_no_output, by decide⟩
  · intro line f h1 h2
    unfold checkFastqFile
    rw [if_neg h1, if_pos h2]
  · intro line f h1 h2 h3 h4
    unfold checkFastqFile
    rw [if_neg h1, if_neg (by simp [h2]), if_neg (by simp [h3, h4])]
  · intro line f h1 h2
    unfold checkBamFile
    rw [if_neg h1, if_pos h2]
  · intro line f h1 h2 h3
    unfold checkBamFile
    rw [if_neg h1, if_neg (by simp [h2]), if_neg (by simp [h3])]

/-- Witness for C6: the filename `a b.fastq.gz` (non-empty, containing a
space) makes the FASTQ file check abort with the contains-spaces error. -/
theorem claim_filename_validity_witness :
    checkFastqFile "L" "a b.fastq.gz" = .error (.fileSpaces "L") :=
  claim_filename_validity.1 "L" "a b.fastq.gz" (by decide) (by decide)

/-- C3: a FASTQ row that reaches the pairing-classification step (enough
columns, enough populated columns, non-empty sanitized sample, both file
checks passed) is recorded with flag `0` when `fastq_1` and `fastq_2` are both
non-empty, with flag `1` when `fastq_1` is non-empty and `fastq_2` empty, and
aborts with the fatal invalid-combination error when `fastq_1` is empty; and
any row-loop abort leaves the output file uncreated. -/
theorem claim_pairing_classification :
    (∀ (m : Mapping) (line : String),
      3 ≤ (parseLine line).length →
      2 ≤ ((parseLine line).filter (fun x => x ≠ "")).length →
      replaceSpaces ((parseLine line).getD 0 "") ≠ "" →
      checkFastqFile line ((parseLine line).getD 1 "") = .ok () →
      checkFastqFile line ((parseLine line).getD 2 "") = .ok () →
      (((parseLine line).getD 1 "" ≠ "" → (parseLine line).getD 2 "" ≠ "" →
        processFastqLine m line =
          addRow m (replaceSpaces ((parseLine line).getD 0 ""))
            ["0", (parseLine line).getD 1 "", (parseLine line).getD 2 ""] line) ∧
       ((parseLine line).getD 1 "" ≠ "" → (parseLine line).getD 2 "" = "" →
        processFastqLine m line =
          addRow m (replaceSpaces ((parseLine line).getD 0 ""))
            ["1", (parseLine line).getD 1 "", (parseLine line).getD 2 ""] line) ∧
       ((parseLine line).getD 1 "" = "" →
        processFastqLine m line = .error (.invalidCombination line)))) ∧
    (∀ (hdr : String) (ls : List String) (e : CheckError),
      (headerFields hdr).take 3 = fastqHeader →
      processFastqLines [] ls = .error e →
      check_samplesheet (hdr :: ls) "FASTQ" = ("", some e)) := by
  refine ⟨?_, fastq_abort_no_output⟩
  intro m line h1 h2 h3 hc1 hc2
  have hred : processFastqLine m line =
      (if replaceSpaces ((parseLine line).getD 0 "") ≠ "" ∧
          (parseLine line).getD 1 "" ≠ "" ∧ (parseLine line).getD 2 "" ≠ "" then
        addRow m (replaceSpaces ((parseLine line).getD 0 ""))
          ["0", (parseLine line).getD 1 "", (parseLine line).getD 2 ""] line
      else if replaceSpaces ((parseLine line).getD 0 "") ≠ "" ∧
          (parseLine line).getD 1 "" ≠ "" ∧ (parseLine line).getD 2 "" = "" then
        addRow m (replaceSpaces ((parseLine line).getD 0 ""))
          ["1", (parseLine line).getD 1 "", (parseLine line).getD 2 ""] line
      else .error (.invalidCombination line)) := by
    simp only [processFastqLine]
    rw [if_neg (show ¬(parseLine line).length < 3 from by omega)]
    rw [if_neg (show ¬((parseLine line).filter (fun x => x ≠ "")).length < 2 from by
      omega)]
    rw [if_neg h3]
    simp only [hc1, hc2]
  refine ⟨?_, ?_, ?_⟩
  · intro hf1 hf2
    rw [hred, if_pos ⟨h3, hf1, hf2⟩]
  · intro hf1 hf2
    rw [hred, if_neg (fun h => h.2.2 hf2), if_pos ⟨h3, hf1, hf2⟩]
  · intro hf1
    rw [hred, if_neg (fun h => h.2.1 hf1), if_neg (fun h => h.2.1 hf1)]

/-- Witness for C3: the paired row `S1,a.fastq.gz,b.fastq.gz` is classified
paired-end and recorded with flag `0`. -/
theorem claim_pairing_classification_witness :
    processFastqLine [] "S1,a.fastq.gz,b.fastq.gz" =
      addRow [] "S1" ["0", "a.fastq.gz", "b.fastq.gz"] "S1,a.fastq.gz,b.fastq.gz" :=
  (claim_pairing_classification.1 [] "S1,a.fastq.gz,b.fastq.gz" (by decide) (by decide)
    (by decide) rfl rfl).1 (by decide) (by decide)

/-- C8: in either mode, a data row aborts with the fatal invalid-column-count
error citing the offending line exactly when its comma-separated field count
is below the number of required header columns (3 for FASTQ, 2 for BAM) —
extra trailing header columns are ignored by the comparison — so a row with
at least that many fields passes this check. -/
theorem claim_column_count :
    (∀ (m : Mapping) (line : String),
      processFastqLine m line = .error (.invalidColumns line) ↔
        (parseLine line).length < 3) ∧
    (∀ (m : Mapping) (line : String),
      processBamLine m line = .error (.invalidColumns line) ↔
        (parseLine line).length < 2) := by
  constructor
  · intro m line
    constructor
    · intro h
      by_contra hlen
      simp only [processFastqLine] at h
      rw [if_neg hlen] at h
      split at h
      · simp at h
      · split at h
        · simp at h
        · split at h
          next e heq =>
            rcases checkFastqFile_cases line ((parseLine line).getD 1 "") with
              hc | hc | hc <;> rw [heq] at hc <;> simp_all
          next heq =>
            split at h
            next e2 heq2 =>
              rcases checkFastqFile_cases line ((parseLine line).getD 2 "") with
                hc | hc | hc <;> rw [heq2] at hc <;> simp_all
            next heq2 =>
              split at h
              · rcases addRow_cases m (replaceSpaces ((parseLine line).getD 0 ""))
                  ["0", (parseLine line).getD 1 "", (parseLine line).getD 2 ""] line with
                  ⟨m', hm⟩ | hm <;> rw [hm] at h <;> simp at h
              · split at h
                · rcases addRow_cases m (replaceSpaces ((parseLine line).getD 0 ""))
                    ["1", (parseLine line).getD 1 "", (parseLine line).getD 2 ""] line with
                    ⟨m', hm⟩ | hm <;> rw [hm] at h <;> simp at h
                · simp at h
    · intro hlen
      simp only [processFastqLine]
      rw [if_pos hlen]
  · intro m line
    constructor
    · intro h
      by_contra hlen
      simp only [processBamLine] at h
      rw [if_neg hlen] at h
      split at h
      · simp at h
      · split at h
        · simp at h
        · split at h
          next e heq =>
            rcases checkBamFile_cases line ((parseLine line).getD 1 "") with
              hc | hc | hc <;> rw [heq] at hc <;> simp_all
          next heq =>
            rcases addRow_cases m (replaceSpaces ((parseLine line).getD 0 ""))
              ["1", (parseLine line).getD 1 ""] line with
              ⟨m', hm⟩ | hm <;> rw [hm] at h <;> simp at h
    · intro hlen
      simp only [processBamLine]
      rw [if_pos hlen]

theorem lookupSample_mem (m : Mapping) (s : String) (v : List (List String))
    (h : lookupSample m s = some v) : (s, v) ∈ m := by
  induction m with
  | nil => cases h
  | cons q rest ih =>
    obtain ⟨k, kv⟩ := q
    simp only [lookupSample] at h
    by_cases hk : k = s
    · rw [if_pos hk] at h
      cases h
      subst hk
      exact List.mem_cons_self _ _
    · rw [if_neg hk] at h
      exact List.mem_cons_of_mem _ (ih h)

theorem mem_updateSample (m : Mapping) (s : String) (vs : List (List String))
    (p : String × List (List String)) (hp : p ∈ updateSample m s vs) :
    p.2 = vs ∨ p ∈ m := by
  induction m with
  | nil => simp [updateSample] at hp
  | cons q rest ih =>
    obtain ⟨k, v⟩ := q
    by_cases hk : k = s
    · subst hk
      simp only [updateSample, if_pos rfl] at hp
      rcases List.mem_cons.mp hp with rfl | hp
      · exact .inl rfl
      · exact .inr (List.mem_cons_of_mem _ hp)
    · simp only [updateSample, if_neg hk] at hp
      rcases List.mem_cons.mp hp with rfl | hp
      · exact .inr (List.mem_cons_self _ _)
      · rcases ih hp with h | h
        · exact .inl h
        · exact .inr (List.mem_cons_of_mem _ h)

theorem addRow_preserves (P : List String → Prop) (m m' : Mapping) (s : String)
    (i : List String) (line : String)
    (hm : ∀ p ∈ m, ∀ info ∈ p.2, P info) (hi : P i)
    (h : addRow m s i line = .ok m') :
    ∀ p ∈ m', ∀ info ∈ p.2, P info := by
  unfold addRow at h
  split at h
  next hl =>
    cases h
    intro p hp info hinfo
    rcases List.mem_append.mp hp with hp | hp
    · exact hm p hp info hinfo
    · rw [List.mem_singleton.mp hp] at hinfo
      rw [List.mem_singleton.mp hinfo]
      exact hi
  next infos hl =>
    split at h
    · cases h
    · cases h
      intro p hp info hinfo
      rcases mem_updateSample m s (infos ++ [i]) p hp with h2 | h2
      · rw [h2] at hinfo
        rcases List.mem_append.mp hinfo with h3 | h3
        · exact hm (s, infos) (lookupSample_mem m s infos hl) info h3
        · rw [List.mem_singleton.mp h3]
          exact hi
      · exact hm p h2 info hinfo

theorem processBamLine_preserves (m m' : Mapping) (line : String)
    (hm : ∀ p ∈ m, ∀ info ∈ p.2, ∃ b, info = ["1", b])
    (h : processBamLine m line = .ok m') :
    ∀ p ∈ m', ∀ info ∈ p.2, ∃ b, info = ["1", b] := by
  simp only [processBamLine] at h
  split at h
  · simp at h
  · split at h
    · simp at h
    · split at h
      · simp at h
      · split at h
        next e heq => simp at h
        next heq =>
          exact addRow_preserves _ m m' (replaceSpaces ((parseLine line).getD 0 ""))
            ["1", (parseLine line).getD 1 ""] line hm ⟨(parseLine line).getD 1 "", rfl⟩ h

theorem processBamLines_preserves (ls : List String) (m m' : Mapping)
    (hm : ∀ p ∈ m, ∀ info ∈ p.2, ∃ b, info = ["1", b])
    (h : processBamLines m ls = .ok m') :
    ∀ p ∈ m', ∀ info ∈ p.2, ∃ b, info = ["1", b] := by
  induction ls generalizing m with
  | nil =>
    simp only [processBamLines] at h
    cases h
    exact hm
  | cons line rest ih =>
    simp only [processBamLines] at h
    split at h
    next e heq => simp at h
    next m2 heq => exact ih m2 (processBamLine_preserves m m2 line hm heq) h

/-- C1: in FASTQ mode, for every samplesheet whose header is accepted, whose
rows are all recorded without abort, and whose groups all pass the
datatype-consistency check, the output file is the header line
`sample,single_end,fastq_1,fastq_2` followed by the recorded groups in sorted
order of sanitized sample name, writing each group's tuples in encounter
order under the name `{sample}_T{n}` with `n` the 1-based position inside the
group (`fastqGroupRows`); recording a row appends its tuple to its sample's
group and leaves every other group unchanged; and the single input row
`S1,S1_R1.fastq.gz,S1_R2.fastq.gz` produces exactly
`sample,single_end,fastq_1,fastq_2\nS1_T1,0,S1_R1.fastq.gz,S1_R2.fastq.gz\n`. -/
theorem claim_fastq_output_format :
    (∀ (lines : List String) (m : Mapping),
      (headerFields (lines.headD "")).take 3 = fastqHeader →
      processFastqLines [] lines.tail = .ok m →
      m ≠ [] →
      (∀ s ∈ sortedKeys m, consistentGroup ((lookupSample m s).getD []) = true) →
      check_samplesheet lines "FASTQ" =
        ("sample,single_end,fastq_1,fastq_2\n" ++
          strJoin ((sortedKeys m).map
            (fun s => fastqGroupRows s ((lookupSample m s).getD []))), none)) ∧
    (∀ (m : Mapping) (sample : String) (info : List String) (line : String)
      (m' : Mapping),
      addRow m sample info line = .ok m' →
      lookupSample m' sample = some ((lookupSample m sample).getD [] ++ [info]) ∧
      ∀ t, t ≠ sample → lookupSample m' t = lookupSample m t) ∧
    check_samplesheet ["sample,fastq_1,fastq_2", "S1,S1_R1.fastq.gz,S1_R2.fastq.gz"]
      "FASTQ" =
      ("sample,single_end,fastq_1,fastq_2\nS1_T1,0,S1_R1.fastq.gz,S1_R2.fastq.gz\n",
       none) := by
  refine ⟨?_, ?_, by decide⟩
  · intro lines m hh hp hne hcons
    rw [fastq_success_output lines m hh hp hne]
    unfold fastqOutput
    exact writeFastqSamples_all_ok m (sortedKeys m) _ hcons
  · intro m sample info line m' h
    exact ⟨addRow_group_append m sample info line m' h,
      fun t ht => addRow_group_other m sample info line m' t h ht⟩

/-- Witness for C1: the single-row sheet satisfies every hypothesis with the
recorded mapping `[("S1", [["0", "S1_R1.fastq.gz", "S1_R2.fastq.gz"]])]`. -/
theorem claim_fastq_output_format_witness :
    check_samplesheet ["sample,fastq_1,fastq_2", "S1,S1_R1.fastq.gz,S1_R2.fastq.gz"]
      "FASTQ" =
      ("sample,single_end,fastq_1,fastq_2\n" ++
        strJoin ((sortedKeys [("S1", [["0", "S1_R1.fastq.gz", "S1_R2.fastq.gz"]])]).map
          (fun s =>
            fastqGroupRows s
              ((lookupSample [("S1", [["0", "S1_R1.fastq.gz", "S1_R2.fastq.gz"]])]
                s).getD []))), none) :=
  claim_fastq_output_format.1
    ["sample,fastq_1,fastq_2", "S1,S1_R1.fastq.gz,S1_R2.fastq.gz"]
    [("S1", [["0", "S1_R1.fastq.gz", "S1_R2.fastq.gz"]])]
    (by decide) rfl (by decide) (by decide)

/-- C5: in FASTQ mode the datatype-consistency check never fails when every
sample's rows share one classification, while a sample whose group mixes
classifications makes the writing phase abort with a fatal
datatype-consistency error naming an inconsistent sample; concretely, rows
`(A,a_1.fastq.gz,a_2.fastq.gz)` and `(A,b_1.fastq.gz,)` fail naming `A`. -/
theorem claim_datatype_consistency :
    (∀ m : Mapping,
      (∀ s ∈ sortedKeys m, consistentGroup ((lookupSample m s).getD []) = true) →
      (fastqOutput m).2 = none) ∧
    (∀ (m : Mapping) (s : String), s ∈ m.map Prod.fst →
      consistentGroup ((lookupSample m s).getD []) = false →
      ∃ t, (fastqOutput m).2 = some (.datatypeMismatch t) ∧
        consistentGroup ((lookupSample m t).getD []) = false) ∧
    check_samplesheet
      ["sample,fastq_1,fastq_2", "A,a_1.fastq.gz,a_2.fastq.gz", "A,b_1.fastq.gz,"]
      "FASTQ" =
      ("sample,single_end,fastq_1,fastq_2\n", some (.datatypeMismatch "A")) := by
  refine ⟨?_, ?_, by decide⟩
  · intro m h
    unfold fastqOutput
    rw [writeFastqSamples_all_ok m _ _ h]
  · intro m s hmem hbad
    exact writeFastqSamples_exists_bad m (sortedKeys m) _
      ⟨s, (mem_sortStrs s _).mpr hmem, hbad⟩

/-- Witness for C5: a mapping whose single group is consistent makes the
writing phase finish without the datatype error. -/
theorem claim_datatype_consistency_witness :
    (fastqOutput [("S1", [["1", "a.fastq.gz", ""]])]).2 = none :=
  claim_datatype_consistency.1 [("S1", [["1", "a.fastq.gz", ""]])] (by decide)

/-- C10: in FASTQ mode, when the datatype-consistency check fails at the
first inconsistent sample in sorted order, the output file has already been
created and holds the header line `sample,single_end,fastq_1,fastq_2`
together with the rows of all the samples sorted before it (it is not left
empty or absent); concretely, with consistent sample `A` before inconsistent
sample `B`, the file holds the header and `A`'s rows. -/
theorem claim_output_written_before_mismatch :
    (∀ (m : Mapping) (ks1 : List String) (s : String) (ks2 : List String),
      sortedKeys m = ks1 ++ s :: ks2 →
      (∀ t ∈ ks1, consistentGroup ((lookupSample m t).getD []) = true) →
      consistentGroup ((lookupSample m s).getD []) = false →
      fastqOutput m =
        ("sample,single_end,fastq_1,fastq_2\n" ++
          strJoin (ks1.map (fun t => fastqGroupRows t ((lookupSample m t).getD []))),
         some (.datatypeMismatch s))) ∧
    (∀ (lines : List String) (m : Mapping),
      (headerFields (lines.headD "")).take 3 = fastqHeader →
      processFastqLines [] lines.tail = .ok m →
      m ≠ [] →
      check_samplesheet lines "FASTQ" = fastqOutput m) ∧
    check_samplesheet
      ["sample,fastq_1,fastq_2", "A,x.fastq.gz,", "B,b_1.fastq.gz,b_2.fastq.gz",
       "B,c.fastq.gz,"] "FASTQ" =
      ("sample,single_end,fastq_1,fastq_2\nA_T1,1,x.fastq.gz,\n",
       some (.datatypeMismatch "B")) := by
  refine ⟨?_, fastq_success_output, by decide⟩
  intro m ks1 s ks2 hdec h1 hs
  unfold fastqOutput
  rw [hdec]
  exact writeFastqSamples_first_bad m ks1 s ks2 _ h1 hs

/-- Witness for C10: a mapping whose single sample `A` is inconsistent aborts
naming `A`, having written exactly the header. -/
theorem claim_output_written_before_mismatch_witness :
    fastqOutput [("A", [["1", "x.fq.gz", ""], ["0", "y.fq.gz", "z.fq.gz"]])] =
      ("sample,single_end,fastq_1,fastq_2\n" ++ strJoin [],
       some (.datatypeMismatch "A")) :=
  claim_output_written_before_mismatch.1
    [("A", [["1", "x.fq.gz", ""], ["0", "y.fq.gz", "z.fq.gz"]])] [] "A" []
    (by decide) (by simp) (by decide)

/-- Counterexample to C2 as stated: for two BAM rows of the same sample with
different files, the idx column is not a 1-based renumbering — the run
succeeds writing `S1,1,b.bam` for the second row, not `S1,2,b.bam` (the
loop's enumerate index is never written). -/
theorem claim_bam_idx_counterexample :
    check_samplesheet ["sample,bam", "S1,a.bam", "S1,b.bam"] "BAM" =
      ("sample,idx,bam\nS1,1,a.bam\nS1,1,b.bam\n", none) ∧
    ("sample,idx,bam\nS1,1,a.bam\nS1,1,b.bam\n" : String) ≠
      "sample,idx,bam\nS1,1,a.bam\nS1,2,b.bam\n" :=
  ⟨by decide, by decide⟩

/-- C2 (amended): in BAM mode, for every samplesheet whose rows all pass
validation, the output file has header `sample,idx,bam`, sample names are
emitted without any `_T` suffix (each row is `",".join([sample] + val)`), and
the idx column of every row holds the constant `1` — the first element of
every recorded tuple — rather than a per-row 1-based renumbering; for the
single input row `S1,S1.bam` the output is exactly
`sample,idx,bam\nS1,1,S1.bam\n`, and two rows for `S1` both carry idx `1`. -/
theorem claim_bam_output_shape :
    (∀ (lines : List String) (m : Mapping),
      (headerFields (lines.headD "")).take 2 = bamHeader →
      processBamLines [] lines.tail = .ok m →
      m ≠ [] →
      check_samplesheet lines "BAM" =
        ("sample,idx,bam\n" ++
          strJoin ((sortedKeys m).map
            (fun s => bamGroupRows s ((lookupSample m s).getD []))), none) ∧
      (∀ p ∈ m, ∀ info ∈ p.2, ∃ b, info = ["1", b])) ∧
    check_samplesheet ["sample,bam", "S1,a.bam", "S1,b.bam"] "BAM" =
      ("sample,idx,bam\nS1,1,a.bam\nS1,1,b.bam\n", none) ∧
    check_samplesheet ["sample,bam", "S1,S1.bam"] "BAM" =
      ("sample,idx,bam\nS1,1,S1.bam\n", none) := by
  refine ⟨?_, by decide, by decide⟩
  intro lines m hh hp hne
  refine ⟨?_, processBamLines_preserves lines.tail [] m (by simp) hp⟩
  rw [bam_success_output lines m hh hp hne]
  rfl

/-- Witness for C2 (amended): the single-row BAM sheet satisfies every
hypothesis with the recorded mapping `[("S1", [["1", "S1.bam"]])]`. -/
theorem claim_bam_output_shape_witness :
    check_samplesheet ["sample,bam", "S1,S1.bam"] "BAM" =
      ("sample,idx,bam\n" ++
        strJoin ((sortedKeys [("S1", [["1", "S1.bam"]])]).map
          (fun s => bamGroupRows s ((lookupSample [("S1", [["1", "S1.bam"]])] s).getD []))),
       none) :=
  ((claim_bam_output_shape.1 ["sample,bam", "S1,S1.bam"] [("S1", [["1", "S1.bam"]])]
    (by decide) rfl (by decide)).1)

end CircleSeq
